import Mathlib

/-!
Verification of the setup/configuration core of the locksmith CLI against its
specification.  The JavaScript sources are shallowly embedded: the persisted
JSON documents (`credentials.json`, `llm-brokers.json`, `auth-modules.json`)
become one explicit `Store` record, the `conf`-based accessors of
`src/utils/core/config.js` become pure functions on that record, interactive
prompts become pure functions over an oracle argument carrying the value the
user would have entered, and subprocess/exception behaviour is modelled with
`Except`.
-/

namespace Locksmith

/-- JavaScript truthiness of a string: only the empty string is falsy. -/
def jsTruthyStr (s : String) : Bool := s ≠ ""

/-- JavaScript truthiness of a nullable string: `null` and `""` are falsy. -/
def jsTruthyOptStr : Option String → Bool
  | none => false
  | some s => s ≠ ""

/-- The `toLowerCase`, modelled character-wise (ASCII case folding, which covers
every identifier the CLI compares). -/
def jsToLower (s : String) : String :=
  ⟨s.data.map Char.toLower⟩

/-- The `trim`: strip leading and trailing whitespace. -/
def jsTrim (s : String) : String :=
  ⟨((s.data.dropWhile fun c => c.isWhitespace).reverse.dropWhile
      fun c => c.isWhitespace).reverse⟩

/-- The `startsWith pre`: the string begins with the given prefix. -/
def jsStartsWith (s pre : String) : Bool :=
  s.data.take pre.data.length = pre.data

/-- A JSON value as written into `credentials.json`: a string, or a flat
object of string fields (the file saved by `saveCredentials` nests the
credential fields one level deep). -/
inductive CredVal where
  | str : String → CredVal
  | obj : List (String × String) → CredVal
deriving DecidableEq

/-- The persisted configuration state.  One field group per JSON document:
`credentials.json` (both the `conf` store keys and the explicitly written
file), `llm-brokers.json`, and `auth-modules.json`.  A JavaScript object is an
association list of fields in insertion order; `none` is JSON `null` /
an absent file. -/
structure Store where
  credentialsFileExists : Bool
  credentials : Option (List (String × String))
  credSavedAt : Option String
  credentialsFile : Option (List (String × CredVal))
  selectedModules : List String
  selectedAt : Option String
  modulesVersion : String
  callbackUri : Option String
  redirectsConfigured : Option Bool
  redirectsConfiguredAt : Option String
  redirectConfiguredAt : Option String
  toolsDetectedAt : Option String
  tools : List (String × Bool)
  toolsVersion : String
  preferredBroker : Option String
deriving DecidableEq

/-- The `hasCredentials` from `src/src/utils/core/detection.js` lines 267-276:
the file must exist, and the stored `credentials` value must be non-null with
at least one key.  The four required credential fields are not inspected. -/
def hasCredentials (s : Store) : Bool :=
  if ¬ s.credentialsFileExists then false
  else
    match s.credentials with
    | none => false
    | some obj => obj.length > 0

/-- The `loadCredentials`: returns the stored `credentials` value (or null). -/
def loadCredentials (s : Store) : Option (List (String × String)) :=
  s.credentials

/-- The `saveCredentials` from `src/src/utils/core/detection.js` lines 226-253:
stores the credentials under the `credentials` key together with a `savedAt`
timestamp, and force-writes `credentials.json` whose top level is the object
`\x7b credentials, savedAt \x7d`. -/
def saveCredentials (now : String) (creds : List (String × String)) (s : Store) : Store :=
  { s with
      credentials := some creds,
      credSavedAt := some now,
      credentialsFileExists := true,
      credentialsFile := some [("credentials", CredVal.obj creds), ("savedAt", CredVal.str now)] }

/-- The auth-modules document as rebuilt by `loadAuthModules`. -/
structure LoadedModules where
  selectedModules : List String
  selectedAt : Option String
  version : String
  callbackUri : Option String
deriving DecidableEq

/-- The `loadAuthModules`: rebuilds the config from the individual keys and
returns null when `selectedAt` is falsy and no module is selected. -/
def loadAuthModules (s : Store) : Option LoadedModules :=
  let config : LoadedModules :=
    ⟨s.selectedModules, s.selectedAt, s.modulesVersion, s.callbackUri⟩
  if ¬ jsTruthyOptStr s.selectedAt ∧ s.selectedModules = [] then none
  else some config

/-- The `hasAuthModules`: the selected-modules list is non-empty. -/
def hasAuthModules (s : Store) : Bool :=
  s.selectedModules.length > 0

/-- The `getAuthModules`: the selected modules, or `[]` when the record is null. -/
def getAuthModules (s : Store) : List String :=
  match loadAuthModules s with
  | none => []
  | some m => m.selectedModules

/-- The `getCallbackUri`: direct read of the `callbackUri` key (default null). -/
def getCallbackUri (s : Store) : Option String :=
  s.callbackUri

/-- The `loadPreferredBroker`: direct read of the `preferredBroker` key. -/
def loadPreferredBroker (s : Store) : Option String :=
  s.preferredBroker

/-- The `additionalConfig` argument of `saveAuthModules`: a JavaScript object
whose present keys overwrite the keys written first.  `none` means the key is
absent from the object; for nullable store fields the value itself is another
`Option`. -/
structure ExtraConfig where
  selectedModules : Option (List String) := none
  selectedAt : Option (Option String) := none
  version : Option String := none
  callbackUri : Option (Option String) := none
  redirectsConfigured : Option Bool := none
  redirectsConfiguredAt : Option String := none
  redirectConfiguredAt : Option String := none
deriving DecidableEq

/-- Applies the `Object.keys(additionalConfig).forEach(set)` loop of
`saveAuthModules`: each key present in the object overwrites the store. -/
def applyExtra (extra : ExtraConfig) (s : Store) : Store :=
  let s := match extra.selectedModules with
    | none => s
    | some v => { s with selectedModules := v }
  let s := match extra.selectedAt with
    | none => s
    | some v => { s with selectedAt := v }
  let s := match extra.version with
    | none => s
    | some v => { s with modulesVersion := v }
  let s := match extra.callbackUri with
    | none => s
    | some v => { s with callbackUri := v }
  let s := match extra.redirectsConfigured with
    | none => s
    | some v => { s with redirectsConfigured := some v }
  let s := match extra.redirectsConfiguredAt with
    | none => s
    | some v => { s with redirectsConfiguredAt := some v }
  match extra.redirectConfiguredAt with
  | none => s
  | some v => { s with redirectConfiguredAt := some v }

/-- The `saveAuthModules` from `src/src/utils/core/detection.js` lines 359-376:
overwrites `selectedModules`, stamps `selectedAt` and `version`, then applies
every key of the additional-config object on top. -/
def saveAuthModules (now : String) (modules : List String) (extra : ExtraConfig)
    (s : Store) : Store :=
  applyExtra extra
    { s with selectedModules := modules, selectedAt := some now, modulesVersion := "1.0" }

/-- The `savePreferredBroker`: sets the broker, bumps the version and refreshes
the detection timestamp. -/
def savePreferredBroker (broker : String) (now : String) (s : Store) : Store :=
  { s with preferredBroker := some broker, toolsVersion := "1.1", toolsDetectedAt := some now }

/-! ### Tool detection (`src/src/utils/core/detection.js` lines 7-48) -/

/-- The two `os.platform()` cases `commandExists` distinguishes. -/
inductive Platform where
  | win32
  | other
deriving DecidableEq

/-- The environment a PATH lookup runs in: the platform, and for each shell
command the exit code of running it (`none` models a missing binary or a
spawn failure, which `execSync` also surfaces as a thrown error). -/
structure ExecEnv where
  platform : Platform
  exitCode : String → Option Nat

/-- The platform-appropriate lookup command: `where` on win32, `which`
elsewhere. -/
def lookupCommand (p : Platform) (cmd : String) : String :=
  match p with
  | Platform.win32 => "where " ++ cmd
  | Platform.other => "which " ++ cmd

/-- The `execSync` as used by `commandExists`: succeeds exactly on exit code 0,
and throws (modelled by `Except.error`) on a non-zero exit or a missing
binary. -/
def execSyncModel (env : ExecEnv) (c : String) : Except String Unit :=
  match env.exitCode c with
  | some 0 => Except.ok ()
  | some _ => Except.error ("Command failed: " ++ c)
  | none => Except.error ("spawn error: " ++ c)

/-- The `commandExists`: runs the platform-appropriate lookup inside try/catch;
every thrown error is caught and turned into `false`, so the function is
total and never propagates an exception. -/
def commandExists (env : ExecEnv) (cmd : String) : Bool :=
  match execSyncModel env (lookupCommand env.platform cmd) with
  | Except.ok _ => true
  | Except.error _ => false

/-- The `hasClaudeCode` -/
def hasClaudeCode (env : ExecEnv) : Bool := commandExists env "claude"

/-- The `hasGemini` -/
def hasGemini (env : ExecEnv) : Bool := commandExists env "gemini"

/-- The `hasCursor` -/
def hasCursor (env : ExecEnv) : Bool := commandExists env "cursor-agent"

/-- The `detectTools`: the availability map for the three fixed tools. -/
def detectTools (env : ExecEnv) : List (String × Bool) :=
  [("claude", hasClaudeCode env), ("gemini", hasGemini env), ("cursor", hasCursor env)]

/-! ### Interactive prompt adapter (`src/src/utils/interactive.js` lines 12-98)

Each operation takes the interactive gate and, as its last argument, the
oracle value the user would answer with; the returned event list records the
stdin reads performed (empty = no I/O). -/

/-- An observable I/O action of a prompt operation. -/
inductive PromptEv where
  | stdinRead
deriving DecidableEq

/-- The `promptIfInteractive`: free-text prompt; returns the default with no I/O
when the gate is false, otherwise blocks on stdin for the answer. -/
def promptIfInteractive (interactive : Bool) (question : String) (defaultValue : String)
    (answer : String) : String × List PromptEv :=
  if ¬ interactive then (defaultValue, [])
  else
    let _ := question
    (answer, [PromptEv.stdinRead])

/-- The `selectIfInteractive`: single-select prompt over a choice list. -/
def selectIfInteractive (interactive : Bool) (question : String) (choices : List String)
    (defaultValue : String) (answer : String) : String × List PromptEv :=
  if ¬ interactive then (defaultValue, [])
  else
    let _ := (question, choices)
    (answer, [PromptEv.stdinRead])

/-- The `confirmIfInteractive`: yes/no prompt. -/
def confirmIfInteractive (interactive : Bool) (question : String) (defaultValue : Bool)
    (answer : Bool) : Bool × List PromptEv :=
  if ¬ interactive then (defaultValue, [])
  else
    let _ := question
    (answer, [PromptEv.stdinRead])

/-- Modelled from the spec: `multiselectIfInteractive` is imported by the
command handlers from `../utils/interactive/interactive.js`, a file that is
not present under `src/`.  Per spec §4.3 the multi-select operation takes the
interactive gate, a question, choices and the default selections, returns the
defaults immediately without any I/O when the gate is false, and otherwise
blocks for the selections of the user. -/
def multiselectIfInteractive (interactive : Bool) (question : String) (choices : List String)
    (defaults : List String) (answer : List String) : List String × List PromptEv :=
  if ¬ interactive then (defaults, [])
  else
    let _ := (question, choices)
    (answer, [PromptEv.stdinRead])

/-! ### JavaScript `new Set` deduplication -/

/-- Worker for `jsSetDedup`: keeps each element the first time it is seen,
in order, skipping elements already in `seen`. -/
def jsSetDedupGo (seen : List String) : List String → List String
  | [] => []
  | a :: l => if a ∈ seen then jsSetDedupGo seen l else a :: jsSetDedupGo (a :: seen) l

/-- The `[...new Set(list)]`: insertion-order deduplication, keeping first
occurrences. -/
def jsSetDedup (l : List String) : List String :=
  jsSetDedupGo [] l

/-! ### The save step of the `add` flow (`src/unnamed/part_004` lines 311-343) -/

/-- The `saveModulesAndConfiguration`: unless dry-running, unions the newly
selected modules with the already persisted ones via `new Set`, attaches the
redirect keys when a callback URI was collected, and saves. -/
def saveModulesAndConfiguration (now : String) (selectedModules : List String)
    (callbackUri : Option String) (dryRun : Bool) (s : Store) : Bool × Store :=
  if dryRun then (true, s)
  else
    let existingModules := getAuthModules s
    let allModules := jsSetDedup (existingModules ++ selectedModules)
    let extra : ExtraConfig :=
      match callbackUri with
      | some u =>
        if u ≠ "" then
          { callbackUri := some (some u), redirectsConfigured := some true,
            redirectsConfiguredAt := some now }
        else {}
      | none => {}
    (true, saveAuthModules now allModules extra s)

/-! ### `init` non-interactive flow (`src/src/commands/init.js` lines 256-302) -/

/-- The flag values handed to `init`; `none` is an absent flag. -/
structure InitFlags where
  provider : Option String
  environmentId : Option String
  clientId : Option String
  clientSecret : Option String
  environmentUrl : Option String
deriving DecidableEq

/-- The error scenarios `validateNonInteractiveParams` can throw. -/
inductive InitError where
  | missingRequiredFlags (flags : List String)
  | invalidProvider (provider : String)
deriving DecidableEq

/-- The `validateNonInteractiveParams`: collects the falsy flags in order and
throws when any is missing; then requires the provider to be `scalekit`
case-insensitively; on success returns the credentials object with its four
fields in literal order. -/
def validateNonInteractiveParams (flags : InitFlags) :
    Except InitError (List (String × String)) :=
  let missingParams :=
    (if ¬ jsTruthyOptStr flags.provider then ["--provider"] else []) ++
    (if ¬ jsTruthyOptStr flags.environmentId then ["--environment-id"] else []) ++
    (if ¬ jsTruthyOptStr flags.clientId then ["--client-id"] else []) ++
    (if ¬ jsTruthyOptStr flags.clientSecret then ["--client-secret"] else []) ++
    (if ¬ jsTruthyOptStr flags.environmentUrl then ["--environment-url"] else [])
  if missingParams.length > 0 then
    Except.error (InitError.missingRequiredFlags missingParams)
  else if (jsToLower (flags.provider.getD "") ≠ "scalekit") then
    Except.error (InitError.invalidProvider (flags.provider.getD ""))
  else
    Except.ok
      [("environmentId", flags.environmentId.getD ""),
       ("clientId", flags.clientId.getD ""),
       ("clientSecret", flags.clientSecret.getD ""),
       ("environmentUrl", flags.environmentUrl.getD "")]

/-- How a run of `init` ends: early return because credentials already
exist, a thrown validation error (the command then exits non-zero), or a
successful save (exit code 0). -/
inductive InitOutcome where
  | alreadyConfigured
  | errorExit (e : InitError)
  | success
deriving DecidableEq

/-- The non-interactive path of `handleInitCommand`
(`src/src/commands/init.js` lines 593-635): early-returns when credentials
already exist, validates the flags, and on success runs
`handleNonInteractiveSetup`, which calls `saveCredentials` on the validated
credentials object. -/
def handleInitCommandNonInteractive (flags : InitFlags) (now : String) (s : Store) :
    InitOutcome × Store :=
  if hasCredentials s then (InitOutcome.alreadyConfigured, s)
  else
    match validateNonInteractiveParams flags with
    | Except.error e => (InitOutcome.errorExit e, s)
    | Except.ok credentials => (InitOutcome.success, saveCredentials now credentials s)

/-! ### The generate command and its setup orchestrator
(`src/unnamed/part_009`, first document) -/

/-- Fixed enumerations from `src/src/core/constants.js`. -/
def SUPPORTED_AUTH_MODULES : List String := ["full-stack-auth", "sso", "mcp"]

/-- The `AVAILABLE_BROKERS` from `src/src/core/constants.js`. -/
def AVAILABLE_BROKERS : List String := ["gemini", "claude", "cursor-agent"]

/-- Observable events of a `generate` run: console messages, the remediation
flows the orchestrator ran (with their outcome; for the callback flow,
whether it threw), and dispatch to a broker integration. -/
inductive Ev where
  | msg (text : String)
  | remCred (ok : Bool)
  | remCallback (threw : Bool)
  | remModules (ok : Bool)
  | remBroker (ok : Bool)
  | invokeBroker (name : String)
deriving DecidableEq

/-- The oracle environment of a `generate` run: the execution mode plus the
values the interactive answers of the user would produce and whether the redirect
configuration flow throws.  Exceptions inside the credentials / modules /
broker flows are caught inside those flows and reported as `false`, so their
cancellation oracles already cover them. -/
structure GenEnv where
  useInteractive : Bool
  envIdInput : String
  clientIdInput : String
  clientSecretInput : String
  environmentUrlInput : String
  confirmSaveCredentials : Bool
  redirectsThrows : Bool
  redirectsCollectedUri : Option String
  modulesMultiselect : List String
  brokerSelect : Option String
  generateModuleSelect : Option String
deriving DecidableEq

/-- The `promptMissingCredentials` (part_009 lines 715-804): interactive-only;
collects the environment id, the remaining three credentials (all must be
truthy) and a confirmation, then saves.  Any cancellation returns false. -/
def promptMissingCredentials (env : GenEnv) (now : String) (s : Store) : Bool × Store :=
  if ¬ env.useInteractive then (false, s)
  else if env.envIdInput = "" then (false, s)
  else
    let credentials : List (String × String) :=
      [("environmentId", env.envIdInput), ("clientId", env.clientIdInput),
       ("clientSecret", env.clientSecretInput), ("environmentUrl", env.environmentUrlInput)]
    if credentials.any (fun p => p.2 = "") then (false, s)
    else if ¬ env.confirmSaveCredentials then (false, s)
    else (true, saveCredentials now credentials s)

/-- The `handleConfigureRedirects` (`src/src/commands/configure.js` lines
892-969), as called by the orchestrator.  The prompt/browser sub-steps are
abstracted into the oracles: `redirectsThrows` is an exception escaping the
flow, and `redirectsCollectedUri` is the (already validated and trimmed)
callback URI collected by `promptForCallbackUri`, or `none` when the flow
stopped early or the user gave none.  When a URI was collected the flow
saves it, re-applying the fields of the existing record (lines 936-945). -/
def handleConfigureRedirects (env : GenEnv) (now : String) (s : Store) :
    Except Unit Store :=
  if env.redirectsThrows then Except.error ()
  else
    match env.redirectsCollectedUri with
    | none => Except.ok s
    | some u =>
      if u = "" then Except.ok s
      else
        let existingConfig := loadAuthModules s
        let extra : ExtraConfig :=
          match existingConfig with
          | none =>
            { callbackUri := some (some u), redirectConfiguredAt := some now }
          | some c =>
            { selectedModules := some c.selectedModules,
              selectedAt := some c.selectedAt,
              version := some c.version,
              callbackUri := some (some u),
              redirectConfiguredAt := some now }
        let modulesArg := match existingConfig with
          | none => []
          | some c => c.selectedModules
        Except.ok (saveAuthModules now modulesArg extra s)

/-- The `promptMissingAuthModules` (part_009 lines 865-917): interactive-only;
multi-selects over the fixed module enumeration (all pre-checked); an empty
selection is tolerated ("proceeding anyway"), otherwise the selection is
saved. -/
def promptMissingAuthModules (env : GenEnv) (now : String) (s : Store) : Bool × Store :=
  if ¬ env.useInteractive then (false, s)
  else
    let selected :=
      (multiselectIfInteractive true "Select authentication modules to add:"
        SUPPORTED_AUTH_MODULES SUPPORTED_AUTH_MODULES env.modulesMultiselect).1
    if selected = [] then (true, s)
    else (true, saveAuthModules now selected {} s)

/-- The `promptMissingLLMBroker` (part_009 lines 922-960): interactive-only;
single-selects a broker and persists it; a falsy selection returns false. -/
def promptMissingLLMBroker (env : GenEnv) (now : String) (s : Store) : Bool × Store :=
  if ¬ env.useInteractive then (false, s)
  else
    let selectedBroker :=
      (selectIfInteractive true "Select your preferred LLM broker:" AVAILABLE_BROKERS
        (AVAILABLE_BROKERS.headD "") (env.brokerSelect.getD "")).1
    if selectedBroker = "" then (false, s)
    else (true, savePreferredBroker selectedBroker now s)

/-- The running state of the orchestrator: whether the sequence is still
proceeding, the store, and the events so far.  The source early-returns on a
failed remediation; here each later step is the identity once `ok` is
false. -/
structure StepState where
  ok : Bool
  store : Store
  events : List Ev
deriving DecidableEq

/-- Console text of the non-interactive missing-callback branch of the
orchestrator (part_009 lines 1000-1003). -/
def interactiveRequiredCallbackMsg : String :=
  "❌ Interactive mode required for callback URI setup"

/-- Second line of the same branch. -/
def runConfigureRedirectsMsg : String :=
  "💡 Run: locksmith configure auth --redirects"

/-- Warning printed when the interactive redirect configuration throws
(part_009 lines 993-997); the orchestrator then continues. -/
def redirectSkippedMsg : String :=
  "⚠️  Redirect configuration step was skipped or failed. You can run it later with: locksmith configure auth --redirects"

/-- Orchestrator state 1 (part_009 lines 969-978): check credentials, and
remediate via `promptMissingCredentials` when unsatisfied. -/
def setupStep1 (env : GenEnv) (now : String) (s : Store) : StepState :=
  if hasCredentials s then ⟨true, s, []⟩
  else
    match promptMissingCredentials env now s with
    | (ok, s1) => ⟨ok, s1, [Ev.remCred ok]⟩

/-- Orchestrator state 2 (part_009 lines 981-1007): check the callback URI.
Interactive: run `handleConfigureRedirects`, catching and reporting any
exception and continuing either way.  Non-interactive: report and abort. -/
def setupStep2 (env : GenEnv) (now : String) (st : StepState) : StepState :=
  if ¬ st.ok then st
  else if jsTruthyOptStr (getCallbackUri st.store) then st
  else if env.useInteractive then
    match handleConfigureRedirects env now st.store with
    | Except.ok s2 => ⟨true, s2, st.events ++ [Ev.remCallback false]⟩
    | Except.error _ =>
      ⟨true, st.store, st.events ++ [Ev.remCallback true, Ev.msg redirectSkippedMsg]⟩
  else
    ⟨false, st.store,
      st.events ++ [Ev.msg interactiveRequiredCallbackMsg, Ev.msg runConfigureRedirectsMsg]⟩

/-- Orchestrator state 3 (part_009 lines 1010-1018): check auth modules, and
remediate via `promptMissingAuthModules` when unsatisfied. -/
def setupStep3 (env : GenEnv) (now : String) (st : StepState) : StepState :=
  if ¬ st.ok then st
  else if hasAuthModules st.store then st
  else
    match promptMissingAuthModules env now st.store with
    | (ok, s3) => ⟨ok, s3, st.events ++ [Ev.remModules ok]⟩

/-- Orchestrator state 4 (part_009 lines 1021-1030): check the preferred
broker, and remediate via `promptMissingLLMBroker` when unsatisfied. -/
def setupStep4 (env : GenEnv) (now : String) (st : StepState) : StepState :=
  if ¬ st.ok then st
  else if jsTruthyOptStr (loadPreferredBroker st.store) then st
  else
    match promptMissingLLMBroker env now st.store with
    | (ok, s4) => ⟨ok, s4, st.events ++ [Ev.remBroker ok]⟩

/-- The `ensureCompleteSetup` (part_009 lines 965-1041): the four states in their
fixed order, each step a no-op once an earlier step aborted. -/
def ensureCompleteSetup (env : GenEnv) (now : String) (s : Store) : StepState :=
  setupStep4 env now (setupStep3 env now (setupStep2 env now (setupStep1 env now s)))

/-- The record returned by `validateModuleSelection`. -/
structure ModuleValidation where
  selectedModules : List String
  shouldContinue : Bool
  error : Option String
deriving DecidableEq

/-- Console text of the empty-persisted-set branch (part_009 line 72). -/
def noModulesConfiguredMsg : String :=
  "⚠️  No authentication modules configured."

/-- Console text of the ambiguous non-interactive branch (part_009 lines
117-121). -/
def multipleModulesMsg : String :=
  "❌ Multiple modules configured. Please specify --module=<name>"

/-- Console text of the interactive multi-selection guard (part_009 lines
107-112). -/
def selectOnlyOneMsg : String :=
  "⚠️  Please select only one module for generation"

/-- The `validateInteractiveModuleSelection` (part_009 lines 135-172):
single-select over the full module enumeration; a falsy selection cancels;
otherwise the chosen module is saved (overwriting the persisted set) and
selected. -/
def validateInteractiveModuleSelection (env : GenEnv) (now : String) (s : Store) :
    ModuleValidation × Store × List Ev :=
  match env.generateModuleSelect with
  | none => (⟨[], false, none⟩, s, [])
  | some m =>
    if m = "" then (⟨[], false, none⟩, s, [])
    else (⟨[m], true, none⟩, saveAuthModules now [m] {} s, [])

/-- The `validateModuleSelection` (part_009 lines 70-130): empty persisted set
short-circuits without an error; a truthy `--module` flag is lowercased and
must already be in the persisted set (mismatch: an error naming the flag);
otherwise interactive selection, or in non-interactive mode the single
persisted module — more than one is refused with an explicit message. -/
def validateModuleSelection (env : GenEnv) (moduleFlag : Option String)
    (savedModules : List String) (now : String) (s : Store) :
    ModuleValidation × Store × List Ev :=
  if savedModules.length = 0 then
    (⟨[], false, none⟩, s, [Ev.msg noModulesConfiguredMsg])
  else if jsTruthyOptStr moduleFlag then
    let mf := moduleFlag.getD ""
    let normalized := jsToLower mf
    if ¬ savedModules.contains normalized then
      (⟨[], false, some ("Module not configured: " ++ mf)⟩, s,
       [Ev.msg ("❌ Module not configured: " ++ mf)])
    else
      (⟨[normalized], true, none⟩, s, [])
  else if env.useInteractive then
    let r := validateInteractiveModuleSelection env now s
    if r.1.shouldContinue ∧ r.1.selectedModules.length > 1 then
      (⟨[], false, none⟩, r.2.1, r.2.2 ++ [Ev.msg selectOnlyOneMsg])
    else r
  else if savedModules.length > 1 then
    (⟨[], false, none⟩, s, [Ev.msg multipleModulesMsg])
  else
    (⟨savedModules, true, none⟩, s, [])

/-- How `handleGenerateCommand` ends: `CommandResult.success` or
`CommandResult.failure` with its message. -/
inductive CmdOutcome where
  | success (message : String)
  | failure (message : String)
deriving DecidableEq

/-- The `handleGenerateCommand` (part_009 lines 1043-1133): runs the
orchestrator, fails when setup is incomplete, validates the module
selection, and finally dispatches to exactly one broker integration (the
`Ev.invokeBroker` event marks the dispatch into the matching
`handle*Integration`); an unsupported broker is a failure without
dispatch. -/
def handleGenerateCommand (env : GenEnv) (moduleFlag : Option String) (now : String)
    (s : Store) : CmdOutcome × Store × List Ev :=
  let setup := ensureCompleteSetup env now s
  if ¬ setup.ok then
    (CmdOutcome.failure "Setup incomplete - cannot proceed with generation",
     setup.store, setup.events)
  else
    let savedModules := getAuthModules setup.store
    let mv := validateModuleSelection env moduleFlag savedModules now setup.store
    let s2 := mv.2.1
    let evs := setup.events ++ mv.2.2
    if ¬ mv.1.shouldContinue then
      (match mv.1.error with
       | some e => CmdOutcome.failure e
       | none => CmdOutcome.success "Operation cancelled", s2, evs)
    else
      let preferredBroker := jsToLower ((loadPreferredBroker s2).getD "")
      if preferredBroker = "claude" ∨ preferredBroker = "gemini"
          ∨ preferredBroker = "cursor-agent" then
        (CmdOutcome.success "Generation process completed", s2,
         evs ++ [Ev.invokeBroker preferredBroker])
      else
        (CmdOutcome.failure
          ("Unsupported LLM broker: " ++ preferredBroker
            ++ ". Supported: claude, gemini, cursor-agent"), s2, evs)

/-- The `promptMissingCallbackUri` (part_009 lines 809-860): interactive-only;
prompts for a callback URI (the validator closure is passed in the
`options` slot of `promptIfInteractive`, whose spread ignores it, so the
raw answer comes back), rejects a falsy answer, then re-saves the
auth-modules record: the modules argument is `[]`, but the spread of the
existing record into the additional config re-applies every prior field,
with `callbackUri` overwritten by the trimmed answer. -/
def promptMissingCallbackUri (env : GenEnv) (entered : String) (now : String)
    (s : Store) : Bool × Store :=
  if ¬ env.useInteractive then (false, s)
  else
    let callbackUri :=
      (promptIfInteractive true "Callback URI (redirect URL for your application):" ""
        entered).1
    if callbackUri = "" then (false, s)
    else
      let existingModulesConfig : LoadedModules :=
        match loadAuthModules s with
        | some c => c
        | none => ⟨[], some now, "1.0", none⟩
      let updatedModulesConfig :=
        { existingModulesConfig with callbackUri := some (jsTrim callbackUri) }
      let extra : ExtraConfig :=
        { selectedModules := some updatedModulesConfig.selectedModules,
          selectedAt := some updatedModulesConfig.selectedAt,
          version := some updatedModulesConfig.version,
          callbackUri := some updatedModulesConfig.callbackUri }
      (true, saveAuthModules now [] extra s)

/-! ### Shared fixtures -/

/-- A fresh environment: no config file has ever been written. -/
def emptyStore : Store :=
  { credentialsFileExists := false, credentials := none, credSavedAt := none,
    credentialsFile := none, selectedModules := [], selectedAt := none,
    modulesVersion := "1.0", callbackUri := none, redirectsConfigured := none,
    redirectsConfiguredAt := none, redirectConfiguredAt := none,
    toolsDetectedAt := none, tools := [], toolsVersion := "1.1", preferredBroker := none }

/-- A non-interactive run with no interactive answers available. -/
def envNonInteractive : GenEnv :=
  { useInteractive := false, envIdInput := "", clientIdInput := "", clientSecretInput := "",
    environmentUrlInput := "", confirmSaveCredentials := false, redirectsThrows := false,
    redirectsCollectedUri := none, modulesMultiselect := [], brokerSelect := none,
    generateModuleSelect := none }

/-- A persisted credentials record whose `clientSecret` is empty (all four
keys present, one required field empty). -/
def storeMissingSecret : Store :=
  { emptyStore with
      credentialsFileExists := true,
      credentials := some
        [("environmentId", "e1"), ("clientId", "c1"), ("clientSecret", ""),
         ("environmentUrl", "https://e1.example.com")] }

/-- The flag set of the scenario in the spec: `--provider=scalekit` plus the four
credential flags. -/
def scalekitFlags : InitFlags :=
  ⟨some "scalekit", some "e1", some "c1", some "s1", some "https://e1.example.com"⟩

/-- Credentials persisted, one module selected, but no callback URI and no
preferred broker: the `generate --no-interactive` scenario of the spec. -/
def storeMissingCallback : Store :=
  { emptyStore with
      credentialsFileExists := true,
      credentials := some
        [("environmentId", "e1"), ("clientId", "c1"), ("clientSecret", "s1"),
         ("environmentUrl", "https://e1.example.com")],
      selectedModules := ["sso"],
      selectedAt := some "2026-01-01T00:00:00Z" }

/-- An interactive run. -/
def envInteractive : GenEnv := { envNonInteractive with useInteractive := true }

/-- A previously persisted auth-modules record with one selected module. -/
def storeWithModules : Store :=
  { emptyStore with selectedModules := ["sso"], selectedAt := some "2026-01-01T00:00:00Z" }

/-- The orchestrator state a remediation event belongs to, numbered in the
required evaluation order: credentials 0, callback 1, modules 2, broker 3. -/
def remKind : Ev → Option Nat
  | Ev.remCred _ => some 0
  | Ev.remCallback _ => some 1
  | Ev.remModules _ => some 2
  | Ev.remBroker _ => some 3
  | Ev.msg _ => none
  | Ev.invokeBroker _ => none

/-- An interactive run whose redirect-configuration flow throws and whose
module multi-select answer is `["sso"]`. -/
def envRedirectsThrow : GenEnv :=
  { envInteractive with redirectsThrows := true, modulesMultiselect := ["sso"] }

/-- Credentials and a preferred broker persisted; no callback URI and no
modules. -/
def storeCredsNoCallback : Store :=
  { emptyStore with
      credentialsFileExists := true,
      credentials := some
        [("environmentId", "e1"), ("clientId", "c1"), ("clientSecret", "s1"),
         ("environmentUrl", "https://e1.example.com")],
      preferredBroker := some "claude" }


/-! ### Helper lemmas -/

/-- Elements of the dedup worker: in the remaining list and not yet seen. -/
theorem mem_jsSetDedupGo (l : List String) : ∀ (seen : List String) (x : String),
    x ∈ jsSetDedupGo seen l ↔ x ∈ l ∧ x ∉ seen := by
  induction l with
  | nil => intro seen x; simp [jsSetDedupGo]
  | cons a l ih =>
    intro seen x
    by_cases ha : a ∈ seen
    · simp only [jsSetDedupGo, if_pos ha, ih, List.mem_cons]
      constructor
      · rintro ⟨hl, hs⟩; exact ⟨Or.inr hl, hs⟩
      · rintro ⟨h, hs⟩
        rcases h with h | h
        · exact absurd (h ▸ ha) hs
        · exact ⟨h, hs⟩
    · simp only [jsSetDedupGo, if_neg ha, List.mem_cons, ih, List.mem_cons]
      constructor
      · rintro (rfl | ⟨hl, hs⟩)
        · exact ⟨Or.inl rfl, ha⟩
        · exact ⟨Or.inr hl, fun hx => hs (Or.inr hx)⟩
      · rintro ⟨h, hs⟩
        rcases h with rfl | h
        · exact Or.inl rfl
        · by_cases hxa : x = a
          · exact Or.inl hxa
          · exact Or.inr ⟨h, fun hx => hs (hx.resolve_left hxa)⟩

/-- The dedup worker never produces a duplicate. -/
theorem nodup_jsSetDedupGo (l : List String) : ∀ seen, (jsSetDedupGo seen l).Nodup := by
  induction l with
  | nil => intro seen; simp [jsSetDedupGo]
  | cons a l ih =>
    intro seen
    by_cases ha : a ∈ seen
    · simpa [jsSetDedupGo, if_pos ha] using ih seen
    · simp only [jsSetDedupGo, if_neg ha, List.nodup_cons]
      refine ⟨fun hmem => ?_, ih _⟩
      exact ((mem_jsSetDedupGo l _ a).1 hmem).2 (List.mem_cons_self a seen)

/-- The `[...new Set(l)]` has no duplicates. -/
theorem nodup_jsSetDedup (l : List String) : (jsSetDedup l).Nodup :=
  nodup_jsSetDedupGo l []

/-- The `[...new Set(l)]` keeps exactly the elements of `l`. -/
theorem toFinset_jsSetDedup (l : List String) : (jsSetDedup l).toFinset = l.toFinset := by
  ext x
  simp [jsSetDedup, List.mem_toFinset, mem_jsSetDedupGo]

/-- A null auth-modules read means no module was persisted. -/
theorem loadAuthModules_eq_none (s : Store) (h : loadAuthModules s = none) :
    s.selectedModules = [] := by
  unfold loadAuthModules at h
  split at h
  · exact (by assumption : ¬ jsTruthyOptStr s.selectedAt ∧ s.selectedModules = []).2
  · exact absurd h (by simp)

/-- A successful auth-modules read returns exactly the stored fields. -/
theorem loadAuthModules_eq_some (s : Store) (c : LoadedModules)
    (h : loadAuthModules s = some c) :
    c = ⟨s.selectedModules, s.selectedAt, s.modulesVersion, s.callbackUri⟩ := by
  unfold loadAuthModules at h
  split at h
  · exact absurd h (by simp)
  · exact (Option.some.injEq _ _ ▸ h).symm

/-- The `getAuthModules` is just the stored list (the null case forces `[]`). -/
theorem getAuthModules_eq (s : Store) : getAuthModules s = s.selectedModules := by
  unfold getAuthModules
  cases h : loadAuthModules s with
  | none => exact (loadAuthModules_eq_none s h).symm
  | some c => rw [loadAuthModules_eq_some s c h]

/-- The `saveAuthModules` never touches the preferred broker. -/
theorem saveAuthModules_preferredBroker (now : String) (modules : List String)
    (extra : ExtraConfig) (s : Store) :
    (saveAuthModules now modules extra s).preferredBroker = s.preferredBroker := by
  unfold saveAuthModules applyExtra
  repeat' split
  all_goals rfl

/-- The modules-union save with no callback URI: the persisted list is the
`new Set` union of the existing and the new modules. -/
theorem smc_selectedModules (now : String) (sel : List String) (s : Store) :
    ((saveModulesAndConfiguration now sel none false s).2).selectedModules
      = jsSetDedup (s.selectedModules ++ sel) := by
  unfold saveModulesAndConfiguration saveAuthModules applyExtra
  simp [getAuthModules_eq]

/-! ### Claim C2 -/

/-- C2 counterexample: a persisted credentials record with an empty
`clientSecret` — one of the four required fields — for which `hasCredentials`
nevertheless evaluates to `true`, because the check only requires the file to
exist and the record to have at least one key. -/
theorem hasCredentials_counterexample :
    storeMissingSecret.credentials = some
      [("environmentId", "e1"), ("clientId", "c1"), ("clientSecret", ""),
       ("environmentUrl", "https://e1.example.com")]
    ∧ hasCredentials storeMissingSecret = true := by
  exact ⟨rfl, rfl⟩

/-- C2 (amended): `hasCredentials` is `true` exactly when the credentials
file exists and the stored record is non-null with at least one key; it never
inspects the four required credential fields, so a record missing or empty in
any of them still satisfies the check as long as some key is present. -/
theorem hasCredentials_characterization (s : Store) :
    hasCredentials s = true ↔
      (s.credentialsFileExists = true ∧ ∃ obj, s.credentials = some obj ∧ obj ≠ []) := by
  unfold hasCredentials
  by_cases hfe : s.credentialsFileExists
  · cases hc : s.credentials with
    | none => simp [hfe, hc]
    | some obj =>
      simp only [hfe, not_true, if_false, hc, true_and]
      constructor
      · intro h
        refine ⟨obj, rfl, ?_⟩
        intro hnil
        simp [hnil] at h
      · rintro ⟨obj', hobj', hne⟩
        cases hobj'
        simpa [List.length_pos] using hne
  · simp [hfe]

/-! ### Claim C3 -/

/-- C3 counterexample: in a fresh environment the non-interactive init run
succeeds, but the created `credentials.json` does not contain the four
supplied fields at top level together with a `configuredAt` timestamp: its
top-level keys are exactly `credentials` (a nested object holding the four
fields) and `savedAt`; no `configuredAt` key exists anywhere at top level and
the four fields are not top-level keys. -/
theorem initNonInteractive_counterexample :
    (handleInitCommandNonInteractive scalekitFlags "2026-01-01T00:00:00Z" emptyStore).1
      = InitOutcome.success
    ∧ (((handleInitCommandNonInteractive scalekitFlags "2026-01-01T00:00:00Z"
          emptyStore).2.credentialsFile.getD []).map Prod.fst)
      = ["credentials", "savedAt"]
    ∧ "configuredAt" ∉
        (((handleInitCommandNonInteractive scalekitFlags "2026-01-01T00:00:00Z"
          emptyStore).2.credentialsFile.getD []).map Prod.fst)
    ∧ "environmentId" ∉
        (((handleInitCommandNonInteractive scalekitFlags "2026-01-01T00:00:00Z"
          emptyStore).2.credentialsFile.getD []).map Prod.fst) := by
  refine ⟨rfl, rfl, ?_, ?_⟩ <;> decide

/-- C3 (amended): in a fresh environment, non-interactive init with
`--provider=scalekit` and truthy values for the four credential flags
succeeds (exit code 0) and writes `credentials.json` whose top level is a
`credentials` object holding exactly the four supplied fields plus a
`savedAt` timestamp — no `configuredAt` field and no `provider` field are
stored. -/
theorem initNonInteractive_success (s : Store) (now e c k u : String)
    (hfresh : hasCredentials s = false)
    (he : e ≠ "") (hc : c ≠ "") (hk : k ≠ "") (hu : u ≠ "") :
    handleInitCommandNonInteractive ⟨some "scalekit", some e, some c, some k, some u⟩ now s
      = (InitOutcome.success,
         saveCredentials now
           [("environmentId", e), ("clientId", c), ("clientSecret", k),
            ("environmentUrl", u)] s)
    ∧ (handleInitCommandNonInteractive ⟨some "scalekit", some e, some c, some k, some u⟩
        now s).2.credentialsFile
      = some [("credentials",
               CredVal.obj [("environmentId", e), ("clientId", c), ("clientSecret", k),
                            ("environmentUrl", u)]),
              ("savedAt", CredVal.str now)] := by
  have hv : validateNonInteractiveParams ⟨some "scalekit", some e, some c, some k, some u⟩
      = Except.ok [("environmentId", e), ("clientId", c), ("clientSecret", k),
                   ("environmentUrl", u)] := by
    unfold validateNonInteractiveParams
    simp only [jsTruthyOptStr, Option.getD_some]
    simp [he, hc, hk, hu]
    decide
  constructor
  · unfold handleInitCommandNonInteractive
    simp [hfresh, hv]
  · unfold handleInitCommandNonInteractive
    simp [hfresh, hv, saveCredentials]

/-- C3 witness: the amended theorem at the concrete scenario of the spec. -/
theorem initNonInteractive_success_witness :
    handleInitCommandNonInteractive scalekitFlags "2026-01-01T00:00:00Z" emptyStore
      = (InitOutcome.success,
         saveCredentials "2026-01-01T00:00:00Z"
           [("environmentId", "e1"), ("clientId", "c1"), ("clientSecret", "s1"),
            ("environmentUrl", "https://e1.example.com")] emptyStore)
    ∧ (handleInitCommandNonInteractive scalekitFlags "2026-01-01T00:00:00Z"
        emptyStore).2.credentialsFile
      = some [("credentials",
               CredVal.obj [("environmentId", "e1"), ("clientId", "c1"),
                            ("clientSecret", "s1"),
                            ("environmentUrl", "https://e1.example.com")]),
              ("savedAt", CredVal.str "2026-01-01T00:00:00Z")] :=
  initNonInteractive_success emptyStore "2026-01-01T00:00:00Z" "e1" "c1" "s1"
    "https://e1.example.com" rfl (by decide) (by decide) (by decide) (by decide)

/-! ### Claim C7 -/

/-- C7: two consecutive `add`-flow saves (no dry run, no callback URI)
persist a duplicate-free `selectedModules` list whose underlying set is the
union of the prior set with both saved sets, and the resulting set does not
depend on which of the two saves runs first. -/
theorem saveModules_union_commutative (s : Store) (a b : List String)
    (n1 n2 n3 n4 : String) :
    (((saveModulesAndConfiguration n2 b none false
        (saveModulesAndConfiguration n1 a none false s).2).2).selectedModules).Nodup
    ∧ (((saveModulesAndConfiguration n2 b none false
        (saveModulesAndConfiguration n1 a none false s).2).2).selectedModules).toFinset
        = s.selectedModules.toFinset ∪ a.toFinset ∪ b.toFinset
    ∧ (((saveModulesAndConfiguration n2 b none false
        (saveModulesAndConfiguration n1 a none false s).2).2).selectedModules).toFinset
        = (((saveModulesAndConfiguration n4 a none false
        (saveModulesAndConfiguration n3 b none false s).2).2).selectedModules).toFinset := by
  refine ⟨?_, ?_, ?_⟩
  · rw [smc_selectedModules]
    exact nodup_jsSetDedup _
  · rw [smc_selectedModules, toFinset_jsSetDedup, List.toFinset_append,
      smc_selectedModules, toFinset_jsSetDedup, List.toFinset_append]
  · rw [smc_selectedModules, toFinset_jsSetDedup, List.toFinset_append,
      smc_selectedModules, toFinset_jsSetDedup, List.toFinset_append,
      smc_selectedModules, toFinset_jsSetDedup, List.toFinset_append,
      smc_selectedModules, toFinset_jsSetDedup, List.toFinset_append]
    rw [Finset.union_right_comm]

/-! ### Claim C8 -/

/-- C8: with the interactive gate false, every prompt operation — free-text,
single-select, multi-select, confirm — returns its supplied default
immediately with an empty I/O trace: no stdin read ever happens. -/
theorem prompts_noninteractive_return_defaults
    (q d a : String) (choices : List String) (db ab : Bool) (ds as : List String) :
    promptIfInteractive false q d a = (d, [])
    ∧ selectIfInteractive false q choices d a = (d, [])
    ∧ confirmIfInteractive false q db ab = (db, [])
    ∧ multiselectIfInteractive false q choices ds as = (ds, []) := by
  exact ⟨rfl, rfl, rfl, rfl⟩

/-! ### Claim C9 -/

/-- C9: for every tool name, `commandExists` returns `true` exactly when the
platform-appropriate PATH lookup (`where` on win32, `which` otherwise) exits
zero, and `false` for any non-zero exit or missing binary; it is a total
boolean function (the embedded `execSync` error is always caught, never
propagated), and `detectTools` is exactly this check applied to the three
fixed tool names. -/
theorem commandExists_spec (env : ExecEnv) (cmd : String) :
    (commandExists env cmd = true ↔
      env.exitCode (lookupCommand env.platform cmd) = some 0)
    ∧ (commandExists env cmd = false ↔
      env.exitCode (lookupCommand env.platform cmd) ≠ some 0)
    ∧ detectTools env
      = [("claude", commandExists env "claude"), ("gemini", commandExists env "gemini"),
         ("cursor", commandExists env "cursor-agent")] := by
  refine ⟨?_, ?_, rfl⟩ <;>
    · unfold commandExists execSyncModel
      rcases h : env.exitCode (lookupCommand env.platform cmd) with _ | n
      · simp [h]
      · cases n <;> simp [h]

/-! ### Claim C4 -/

/-- C4: when credentials exist, modules are selected, but no callback URI is
persisted, non-interactive `generate` fails with the setup-incomplete error,
its output names the callback URI step, and neither a broker integration nor
the module/broker remediation flows are ever reached. -/
theorem handleGenerate_missing_callback (env : GenEnv) (s : Store) (now : String)
    (hni : env.useInteractive = false)
    (hcred : hasCredentials s = true)
    (_hmods : s.selectedModules ≠ [])
    (hcb : jsTruthyOptStr s.callbackUri = false) :
    (handleGenerateCommand env none now s).1
      = CmdOutcome.failure "Setup incomplete - cannot proceed with generation"
    ∧ Ev.msg interactiveRequiredCallbackMsg ∈ (handleGenerateCommand env none now s).2.2
    ∧ (∀ n, Ev.invokeBroker n ∉ (handleGenerateCommand env none now s).2.2)
    ∧ (∀ b, Ev.remModules b ∉ (handleGenerateCommand env none now s).2.2)
    ∧ (∀ b, Ev.remBroker b ∉ (handleGenerateCommand env none now s).2.2) := by
  have hsetup : ensureCompleteSetup env now s
      = ⟨false, s, [Ev.msg interactiveRequiredCallbackMsg, Ev.msg runConfigureRedirectsMsg]⟩ := by
    unfold ensureCompleteSetup setupStep1 setupStep2 setupStep3 setupStep4
    simp [hcred, getCallbackUri, hcb, hni]
  unfold handleGenerateCommand
  rw [hsetup]
  simp

/-- C4 witness: the theorem at the concrete scenario store of the spec. -/
theorem handleGenerate_missing_callback_witness :
    (handleGenerateCommand envNonInteractive none "T" storeMissingCallback).1
      = CmdOutcome.failure "Setup incomplete - cannot proceed with generation"
    ∧ Ev.msg interactiveRequiredCallbackMsg
        ∈ (handleGenerateCommand envNonInteractive none "T" storeMissingCallback).2.2
    ∧ (∀ n, Ev.invokeBroker n
        ∉ (handleGenerateCommand envNonInteractive none "T" storeMissingCallback).2.2)
    ∧ (∀ b, Ev.remModules b
        ∉ (handleGenerateCommand envNonInteractive none "T" storeMissingCallback).2.2)
    ∧ (∀ b, Ev.remBroker b
        ∉ (handleGenerateCommand envNonInteractive none "T" storeMissingCallback).2.2) :=
  handleGenerate_missing_callback envNonInteractive storeMissingCallback "T"
    rfl rfl (by decide) rfl

/-! ### Claim C5 -/

/-- C5 counterexample: with an empty persisted module set and the flag
`--module=sso`, whose lowercased value is certainly not in the persisted set,
the validator returns no error at all (`error = none`, so `generate` reports
`Operation cancelled` as a success) and its output is the generic
no-modules-configured message, which does not name the offending module. -/
theorem validateModuleSelection_emptyset_counterexample :
    (validateModuleSelection envNonInteractive (some "sso") [] "T" emptyStore).1.error = none
    ∧ (validateModuleSelection envNonInteractive (some "sso") [] "T"
        emptyStore).1.shouldContinue = false
    ∧ (validateModuleSelection envNonInteractive (some "sso") [] "T" emptyStore).2.2
        = [Ev.msg noModulesConfiguredMsg] := by
  exact ⟨rfl, rfl, rfl⟩

/-- C5 (amended): provided the persisted module set is non-empty, a truthy
`--module` flag is matched by lowercasing it against the persisted set: a
value whose lowercase form is absent yields a validation error naming the
offending module (never a fallback to all modules), and a present one selects
exactly that single lowercased module.  With an empty persisted set the
validator instead short-circuits with a non-continuing, error-free result
before examining the flag. -/
theorem validateModuleSelection_flag_spec (env : GenEnv) (now : String) (s : Store)
    (saved : List String) (mf : String)
    (hsaved : saved ≠ []) (hmf : mf ≠ "") :
    (saved.contains (jsToLower mf) = false →
      validateModuleSelection env (some mf) saved now s
        = (⟨[], false, some ("Module not configured: " ++ mf)⟩, s,
           [Ev.msg ("❌ Module not configured: " ++ mf)]))
    ∧ (saved.contains (jsToLower mf) = true →
      validateModuleSelection env (some mf) saved now s
        = (⟨[jsToLower mf], true, none⟩, s, [])) := by
  have hlen : ¬ saved.length = 0 := by simpa [List.length_eq_zero] using hsaved
  constructor <;> intro h <;>
  · unfold validateModuleSelection
    simp [hlen, jsTruthyOptStr, hmf, h]
    simpa using h

/-- C5 witness: `--module=SSO` against the persisted set `["sso"]` selects
exactly `["sso"]`. -/
theorem validateModuleSelection_flag_spec_witness :
    validateModuleSelection envNonInteractive (some "SSO") ["sso"] "T" emptyStore
      = (⟨[jsToLower "SSO"], true, none⟩, emptyStore, []) :=
  (validateModuleSelection_flag_spec envNonInteractive "T" emptyStore ["sso"] "SSO"
    (by decide) (by decide)).2 (by decide)

/-! ### Claim C6 -/

/-- C6: in non-interactive mode with no `--module` flag, more than one
persisted module is refused with the explicit multiple-modules message
(selecting nothing), while exactly one persisted module is used as the
selection. -/
theorem validateModuleSelection_noflag_spec (env : GenEnv) (now : String) (s : Store)
    (saved : List String) (hni : env.useInteractive = false) (hsaved : saved ≠ []) :
    (saved.length > 1 →
      validateModuleSelection env none saved now s
        = (⟨[], false, none⟩, s, [Ev.msg multipleModulesMsg]))
    ∧ (∀ m, saved = [m] →
      validateModuleSelection env none saved now s = (⟨[m], true, none⟩, s, [])) := by
  have hlen : ¬ saved.length = 0 := by simpa [List.length_eq_zero] using hsaved
  constructor
  · intro h
    unfold validateModuleSelection
    simp [hlen, jsTruthyOptStr, hni, h]
  · rintro m rfl
    unfold validateModuleSelection
    simp [jsTruthyOptStr, hni]

/-- C6 witness: the ambiguous branch at the persisted set `["sso", "mcp"]`. -/
theorem validateModuleSelection_noflag_spec_witness :
    validateModuleSelection envNonInteractive none ["sso", "mcp"] "T" emptyStore
      = (⟨[], false, none⟩, emptyStore, [Ev.msg multipleModulesMsg]) :=
  (validateModuleSelection_noflag_spec envNonInteractive "T" emptyStore ["sso", "mcp"]
    rfl (by decide)).1 (by decide)

/-! ### Claim C10 -/

/-- C10: for a previously persisted auth-modules record, the callback-URI
remediation given a valid http(s) entry succeeds and writes the record with
`callbackUri` set to the trimmed entry while `selectedModules` is unchanged:
the save passes `[]` as the modules argument, but the spread of the existing
record into the additional config re-applies the prior `selectedModules`. -/
theorem promptMissingCallbackUri_frame (env : GenEnv) (s : Store)
    (entered now : String) (c : LoadedModules)
    (hint : env.useInteractive = true)
    (hload : loadAuthModules s = some c)
    (_hvalid : jsStartsWith entered "http://" = true
      ∨ jsStartsWith entered "https://" = true)
    (hne : entered ≠ "") :
    (promptMissingCallbackUri env entered now s).1 = true
    ∧ ((promptMissingCallbackUri env entered now s).2).callbackUri
        = some (jsTrim entered)
    ∧ ((promptMissingCallbackUri env entered now s).2).selectedModules
        = s.selectedModules := by
  have hc := loadAuthModules_eq_some s c hload
  subst hc
  unfold promptMissingCallbackUri promptIfInteractive
  simp [hint, hne, hload, saveAuthModules, applyExtra]

/-- C10 witness: the theorem at a concrete persisted record and entry. -/
theorem promptMissingCallbackUri_frame_witness :
    (promptMissingCallbackUri envInteractive "https://app.example.com/cb " "T"
      storeWithModules).1 = true
    ∧ ((promptMissingCallbackUri envInteractive "https://app.example.com/cb " "T"
        storeWithModules).2).callbackUri = some (jsTrim "https://app.example.com/cb ")
    ∧ ((promptMissingCallbackUri envInteractive "https://app.example.com/cb " "T"
        storeWithModules).2).selectedModules = storeWithModules.selectedModules :=
  promptMissingCallbackUri_frame envInteractive storeWithModules
    "https://app.example.com/cb " "T"
    ⟨["sso"], some "2026-01-01T00:00:00Z", "1.0", none⟩ rfl rfl
    (Or.inr (by decide)) (by decide)

/-! ### Claim C1 -/

/-- The credentials remediation only writes the credentials fields. -/
theorem pmc_frame (env : GenEnv) (now : String) (s : Store) :
    ((promptMissingCredentials env now s).2).selectedModules = s.selectedModules
    ∧ ((promptMissingCredentials env now s).2).callbackUri = s.callbackUri
    ∧ ((promptMissingCredentials env now s).2).preferredBroker = s.preferredBroker := by
  simp only [promptMissingCredentials, saveCredentials]
  split_ifs <;> simp

/-- A redirect-configuration run that returns normally preserves the
selected modules (it re-applies the value of the existing record) and never
touches the preferred broker. -/
theorem hcr_frame (env : GenEnv) (now : String) (s s2 : Store)
    (h : handleConfigureRedirects env now s = Except.ok s2) :
    s2.selectedModules = s.selectedModules ∧ s2.preferredBroker = s.preferredBroker := by
  unfold handleConfigureRedirects at h
  split at h
  · exact absurd h (by simp)
  · split at h
    · cases h
      exact ⟨rfl, rfl⟩
    · rename_i u
      split at h
      · cases h
        exact ⟨rfl, rfl⟩
      · cases hl : loadAuthModules s with
        | none =>
          have hm := loadAuthModules_eq_none s hl
          rw [hl] at h
          simp only [Except.ok.injEq] at h
          subst h
          simp [saveAuthModules, applyExtra, hm]
        | some c =>
          have hc := loadAuthModules_eq_some s c hl
          subst hc
          rw [hl] at h
          simp only [Except.ok.injEq] at h
          subst h
          simp [saveAuthModules, applyExtra]

/-- The modules remediation never touches the preferred broker. -/
theorem pma_frame (env : GenEnv) (now : String) (s : Store) :
    ((promptMissingAuthModules env now s).2).preferredBroker = s.preferredBroker := by
  simp only [promptMissingAuthModules]
  split_ifs <;> simp [saveAuthModules_preferredBroker]

/-- In interactive mode the modules remediation always reports success (an
empty multi-selection is tolerated as "proceeding anyway"). -/
theorem pma_ok_of_interactive (env : GenEnv) (now : String) (s : Store)
    (h : env.useInteractive = true) :
    (promptMissingAuthModules env now s).1 = true := by
  unfold promptMissingAuthModules
  rw [if_neg (by simp [h])]
  dsimp only
  split <;> rfl

/-- The last element of an appended list is the last of its right part. -/
theorem getLast?_append_some {α : Type} (l₁ l₂ : List α) (e : α)
    (h : l₂.getLast? = some e) : (l₁ ++ l₂).getLast? = some e := by
  induction l₁ with
  | nil => simpa using h
  | cons a l ih =>
    rw [List.cons_append]
    rcases hM : l ++ l₂ with _ | ⟨y, ys⟩
    · rcases List.append_eq_nil.mp hM with ⟨rfl, rfl⟩
      simp at h
    · rw [hM] at ih
      rw [List.getLast?_cons_cons]
      exact ih

/-- Orchestrator states 3 and 4, entered in a proceeding state: the incoming
events are extended by a trace that keeps the modules-before-broker order,
remediates only unsatisfied states, ends at the first failed remediation
(which also makes the run incomplete), and — interactively — always
remediates missing modules successfully. -/
theorem steps34_spec (env : GenEnv) (now : String) (u : Store) (evs1 : List Ev) :
    ∃ tail : List Ev,
      (setupStep4 env now (setupStep3 env now ⟨true, u, evs1⟩)).events = evs1 ++ tail
      ∧ (tail.filterMap remKind).Sublist [2, 3]
      ∧ (∀ b, Ev.remCred b ∉ tail)
      ∧ (∀ b, Ev.remCallback b ∉ tail)
      ∧ (∀ b, Ev.remModules b ∈ tail → hasAuthModules u = false)
      ∧ (∀ b, Ev.remBroker b ∈ tail → jsTruthyOptStr u.preferredBroker = false)
      ∧ (Ev.remModules false ∈ tail →
          (setupStep4 env now (setupStep3 env now ⟨true, u, evs1⟩)).ok = false
          ∧ tail.getLast? = some (Ev.remModules false))
      ∧ (Ev.remBroker false ∈ tail →
          (setupStep4 env now (setupStep3 env now ⟨true, u, evs1⟩)).ok = false
          ∧ tail.getLast? = some (Ev.remBroker false))
      ∧ (hasAuthModules u = false → env.useInteractive = true →
          Ev.remModules true ∈ tail) := by
  by_cases h3 : hasAuthModules u = true
  · have hs3 : setupStep3 env now ⟨true, u, evs1⟩ = ⟨true, u, evs1⟩ := by
      unfold setupStep3
      simp [h3]
    rw [hs3]
    by_cases h4 : jsTruthyOptStr (loadPreferredBroker u) = true
    · have hs4 : setupStep4 env now ⟨true, u, evs1⟩ = ⟨true, u, evs1⟩ := by
        unfold setupStep4
        simp [h4]
      rw [hs4]
      refine ⟨[], by simp, by decide, by simp, by simp, by simp, by simp, by simp, by simp, ?_⟩
      intro hm _
      rw [hm] at h3
      exact absurd h3 (by simp)
    · rcases hp4 : promptMissingLLMBroker env now u with ⟨o4, s4⟩
      have hs4 : setupStep4 env now ⟨true, u, evs1⟩ = ⟨o4, s4, evs1 ++ [Ev.remBroker o4]⟩ := by
        unfold setupStep4
        simp [h4, hp4]
      rw [hs4]
      have hbu : jsTruthyOptStr u.preferredBroker = false := by simpa using h4
      cases o4 with
      | false =>
        refine ⟨[Ev.remBroker false], rfl, by decide, by simp, by simp, by simp,
          fun b _ => hbu, by simp, fun _ => ⟨rfl, rfl⟩, ?_⟩
        intro hm _
        rw [hm] at h3
        exact absurd h3 (by simp)
      | true =>
        refine ⟨[Ev.remBroker true], rfl, by decide, by simp, by simp, by simp,
          fun b _ => hbu, by simp, by simp, ?_⟩
        intro hm _
        rw [hm] at h3
        exact absurd h3 (by simp)
  · have h3f : hasAuthModules u = false := by simpa using h3
    rcases hp3 : promptMissingAuthModules env now u with ⟨o3, s3⟩
    have hb3 : s3.preferredBroker = u.preferredBroker := by
      have hfr := pma_frame env now u
      rw [hp3] at hfr
      exact hfr
    have hs3 : setupStep3 env now ⟨true, u, evs1⟩ = ⟨o3, s3, evs1 ++ [Ev.remModules o3]⟩ := by
      unfold setupStep3
      simp [h3, hp3]
    rw [hs3]
    cases o3 with
    | false =>
      have hni : ¬ env.useInteractive = true := by
        intro hi
        have hok := pma_ok_of_interactive env now u hi
        rw [hp3] at hok
        exact absurd hok (by simp)
      have hs4 : setupStep4 env now ⟨false, s3, evs1 ++ [Ev.remModules false]⟩
          = ⟨false, s3, evs1 ++ [Ev.remModules false]⟩ := by
        unfold setupStep4
        simp
      rw [hs4]
      refine ⟨[Ev.remModules false], rfl, by decide, by simp, by simp,
        fun b _ => h3f, by simp, fun _ => ⟨rfl, rfl⟩, by simp, ?_⟩
      intro _ hi
      exact absurd hi hni
    | true =>
      by_cases h4 : jsTruthyOptStr (loadPreferredBroker s3) = true
      · have hs4 : setupStep4 env now ⟨true, s3, evs1 ++ [Ev.remModules true]⟩
            = ⟨true, s3, evs1 ++ [Ev.remModules true]⟩ := by
          unfold setupStep4
          simp [h4]
        rw [hs4]
        exact ⟨[Ev.remModules true], rfl, by decide, by simp, by simp,
          fun b _ => h3f, by simp, by simp, by simp, fun _ _ => by simp⟩
      · have hbu : jsTruthyOptStr u.preferredBroker = false := by
          have : jsTruthyOptStr s3.preferredBroker = false := by simpa using h4
          rwa [hb3] at this
        rcases hp4 : promptMissingLLMBroker env now s3 with ⟨o4, s4⟩
        have hs4 : setupStep4 env now ⟨true, s3, evs1 ++ [Ev.remModules true]⟩
            = ⟨o4, s4, (evs1 ++ [Ev.remModules true]) ++ [Ev.remBroker o4]⟩ := by
          unfold setupStep4
          simp [h4, hp4]
        rw [hs4]
        cases o4 with
        | false =>
          refine ⟨[Ev.remModules true, Ev.remBroker false], by simp, by decide, by simp,
            by simp, fun b _ => h3f, fun b _ => hbu, by simp, fun _ => ⟨rfl, by decide⟩,
            fun _ _ => by simp⟩
        | true =>
          refine ⟨[Ev.remModules true, Ev.remBroker true], by simp, by decide, by simp,
            by simp, fun b _ => h3f, fun b _ => hbu, by simp, by simp, fun _ _ => by simp⟩

/-- Orchestrator states 2, 3 and 4, entered in a proceeding state with store
`t`: the events extend the incoming ones by a trace in the fixed state order,
each remediation runs only for a state unsatisfied in `t`, a failed modules
or broker remediation is last and makes the run incomplete, and an exception
in the interactive callback remediation does not stop the sequence: a missing
modules state is still remediated afterwards. -/
theorem steps234_spec (env : GenEnv) (now : String) (t : Store) (evs0 : List Ev) :
    ∃ tail : List Ev,
      (setupStep4 env now (setupStep3 env now (setupStep2 env now ⟨true, t, evs0⟩))).events
        = evs0 ++ tail
      ∧ (tail.filterMap remKind).Sublist [1, 2, 3]
      ∧ (∀ b, Ev.remCred b ∉ tail)
      ∧ (∀ b, Ev.remCallback b ∈ tail →
          jsTruthyOptStr t.callbackUri = false ∧ env.useInteractive = true)
      ∧ (∀ b, Ev.remModules b ∈ tail → hasAuthModules t = false)
      ∧ (∀ b, Ev.remBroker b ∈ tail → jsTruthyOptStr t.preferredBroker = false)
      ∧ (Ev.remModules false ∈ tail →
          (setupStep4 env now (setupStep3 env now (setupStep2 env now ⟨true, t, evs0⟩))).ok
            = false
          ∧ tail.getLast? = some (Ev.remModules false))
      ∧ (Ev.remBroker false ∈ tail →
          (setupStep4 env now (setupStep3 env now (setupStep2 env now ⟨true, t, evs0⟩))).ok
            = false
          ∧ tail.getLast? = some (Ev.remBroker false))
      ∧ (env.useInteractive = true → Ev.remCallback true ∈ tail →
          hasAuthModules t = false → Ev.remModules true ∈ tail) := by
  by_cases h2 : jsTruthyOptStr (getCallbackUri t) = true
  · have hs2 : setupStep2 env now ⟨true, t, evs0⟩ = ⟨true, t, evs0⟩ := by
      unfold setupStep2
      simp [h2]
    rw [hs2]
    obtain ⟨tl, hev, hsub, hnc, hncb, hm, hb, hmf, hbf, hcont⟩ := steps34_spec env now t evs0
    refine ⟨tl, hev, hsub.trans (by decide), hnc, ?_, hm, hb, hmf, hbf, ?_⟩
    · intro b hbmem
      exact absurd hbmem (hncb b)
    · intro _ hbmem
      exact absurd hbmem (hncb true)
  · have h2f : jsTruthyOptStr t.callbackUri = false := by simpa using h2
    by_cases hi : env.useInteractive = true
    · cases hr : handleConfigureRedirects env now t with
      | ok s2 =>
        have hs2 : setupStep2 env now ⟨true, t, evs0⟩
            = ⟨true, s2, evs0 ++ [Ev.remCallback false]⟩ := by
          unfold setupStep2
          simp [h2, hi, hr]
        rw [hs2]
        obtain ⟨hfm, hfb⟩ := hcr_frame env now t s2 hr
        have hAM : hasAuthModules s2 = hasAuthModules t := by
          unfold hasAuthModules
          rw [hfm]
        have hPB : jsTruthyOptStr s2.preferredBroker = jsTruthyOptStr t.preferredBroker := by
          rw [hfb]
        obtain ⟨tl, hev, hsub, hnc, hncb, hm, hb, hmf, hbf, hcont⟩ :=
          steps34_spec env now s2 (evs0 ++ [Ev.remCallback false])
        refine ⟨Ev.remCallback false :: tl, ?_, ?_, ?_, ?_, ?_, ?_, ?_, ?_, ?_⟩
        · rw [hev]
          simp
        · simp only [List.filterMap_cons, remKind]
          exact List.Sublist.cons₂ _ (hsub.trans (by decide))
        · intro b hbmem
          rcases List.mem_cons.mp hbmem with h | h
          · cases h
          · exact absurd h (hnc b)
        · intro b hbmem
          exact ⟨h2f, hi⟩
        · intro b hbmem
          rcases List.mem_cons.mp hbmem with h | h
          · cases h
          · rw [← hAM]
            exact hm b h
        · intro b hbmem
          rcases List.mem_cons.mp hbmem with h | h
          · cases h
          · rw [← hPB]
            exact hb b h
        · intro hmem
          rcases List.mem_cons.mp hmem with h | h
          · cases h
          · obtain ⟨hok, hlast⟩ := hmf h
            exact ⟨hok, getLast?_append_some [Ev.remCallback false] tl _ hlast⟩
        · intro hmem
          rcases List.mem_cons.mp hmem with h | h
          · cases h
          · obtain ⟨hok, hlast⟩ := hbf h
            exact ⟨hok, getLast?_append_some [Ev.remCallback false] tl _ hlast⟩
        · intro hi' _ h3t
          exact List.mem_cons_of_mem _ (hcont (hAM.trans h3t) hi')
      | error e =>
        have hs2 : setupStep2 env now ⟨true, t, evs0⟩
            = ⟨true, t, evs0 ++ [Ev.remCallback true, Ev.msg redirectSkippedMsg]⟩ := by
          unfold setupStep2
          simp [h2, hi, hr]
        rw [hs2]
        obtain ⟨tl, hev, hsub, hnc, hncb, hm, hb, hmf, hbf, hcont⟩ :=
          steps34_spec env now t (evs0 ++ [Ev.remCallback true, Ev.msg redirectSkippedMsg])
        refine ⟨Ev.remCallback true :: Ev.msg redirectSkippedMsg :: tl, ?_, ?_, ?_, ?_, ?_,
          ?_, ?_, ?_, ?_⟩
        · rw [hev]
          simp
        · simp only [List.filterMap_cons, remKind]
          exact List.Sublist.cons₂ _ (hsub.trans (by decide))
        · intro b hbmem
          rcases List.mem_cons.mp hbmem with h | h
          · cases h
          · rcases List.mem_cons.mp h with h' | h'
            · cases h'
            · exact absurd h' (hnc b)
        · intro b hbmem
          exact ⟨h2f, hi⟩
        · intro b hbmem
          rcases List.mem_cons.mp hbmem with h | h
          · cases h
          · rcases List.mem_cons.mp h with h' | h'
            · cases h'
            · exact hm b h'
        · intro b hbmem
          rcases List.mem_cons.mp hbmem with h | h
          · cases h
          · rcases List.mem_cons.mp h with h' | h'
            · cases h'
            · exact hb b h'
        · intro hmem
          rcases List.mem_cons.mp hmem with h | h
          · cases h
          · rcases List.mem_cons.mp h with h' | h'
            · cases h'
            · obtain ⟨hok, hlast⟩ := hmf h'
              exact ⟨hok,
                getLast?_append_some [Ev.remCallback true, Ev.msg redirectSkippedMsg] tl _ hlast⟩
        · intro hmem
          rcases List.mem_cons.mp hmem with h | h
          · cases h
          · rcases List.mem_cons.mp h with h' | h'
            · cases h'
            · obtain ⟨hok, hlast⟩ := hbf h'
              exact ⟨hok,
                getLast?_append_some [Ev.remCallback true, Ev.msg redirectSkippedMsg] tl _ hlast⟩
        · intro hi' _ h3t
          exact List.mem_cons_of_mem _ (List.mem_cons_of_mem _ (hcont h3t hi'))
    · have hs2 : setupStep2 env now ⟨true, t, evs0⟩
          = ⟨false, t,
             evs0 ++ [Ev.msg interactiveRequiredCallbackMsg, Ev.msg runConfigureRedirectsMsg]⟩ := by
        unfold setupStep2
        simp [h2, hi]
      rw [hs2]
      have hs3 : setupStep3 env now
          (⟨false, t,
            evs0 ++ [Ev.msg interactiveRequiredCallbackMsg, Ev.msg runConfigureRedirectsMsg]⟩
            : StepState)
          = ⟨false, t,
             evs0 ++ [Ev.msg interactiveRequiredCallbackMsg, Ev.msg runConfigureRedirectsMsg]⟩ := by
        unfold setupStep3
        simp
      rw [hs3]
      have hs4 : setupStep4 env now
          (⟨false, t,
            evs0 ++ [Ev.msg interactiveRequiredCallbackMsg, Ev.msg runConfigureRedirectsMsg]⟩
            : StepState)
          = ⟨false, t,
             evs0 ++ [Ev.msg interactiveRequiredCallbackMsg, Ev.msg runConfigureRedirectsMsg]⟩ := by
        unfold setupStep4
        simp
      rw [hs4]
      refine ⟨[Ev.msg interactiveRequiredCallbackMsg, Ev.msg runConfigureRedirectsMsg],
        rfl, by decide, by simp, by simp, by simp, by simp, by simp, by simp, ?_⟩
      intro hi' _ _
      exact absurd hi' hi

/-- C1 counterexample: with the callback URI unsatisfied and its interactive
remediation flow throwing, the orchestrator does not abort: it records the
failed callback remediation, then still remediates the later auth-modules
state, and reports the setup as complete — refuting the transition rule that
as soon as the remediation flow of any state fails, it aborts the entire
sequence and reports incomplete setup, never remediating a later state after
an earlier remediation failed. -/
theorem ensureCompleteSetup_counterexample :
    (ensureCompleteSetup envRedirectsThrow "T" storeCredsNoCallback).ok = true
    ∧ Ev.remCallback true
        ∈ (ensureCompleteSetup envRedirectsThrow "T" storeCredsNoCallback).events
    ∧ (ensureCompleteSetup envRedirectsThrow "T" storeCredsNoCallback).events
        = [Ev.remCallback true, Ev.msg redirectSkippedMsg, Ev.remModules true] := by
  refine ⟨rfl, ?_, rfl⟩
  decide

/-- C1 (amended): the orchestrator evaluates the four states strictly in the
order credentials, callback URI, modules, broker, remediating a state only
when it is unsatisfied; a failed or cancelled credentials, modules or broker
remediation is the last event and makes the run incomplete; but an exception
in the interactive callback remediation is caught and the sequence continues
— a missing modules state is still remediated (successfully) afterwards.
Only the non-interactive missing-callback branch aborts at state 2. -/
theorem ensureCompleteSetup_order (env : GenEnv) (now : String) (s : Store) :
    (((ensureCompleteSetup env now s).events.filterMap remKind).Sublist [0, 1, 2, 3])
    ∧ (∀ b, Ev.remCred b ∈ (ensureCompleteSetup env now s).events →
        hasCredentials s = false)
    ∧ (∀ b, Ev.remCallback b ∈ (ensureCompleteSetup env now s).events →
        jsTruthyOptStr s.callbackUri = false ∧ env.useInteractive = true)
    ∧ (∀ b, Ev.remModules b ∈ (ensureCompleteSetup env now s).events →
        hasAuthModules s = false)
    ∧ (∀ b, Ev.remBroker b ∈ (ensureCompleteSetup env now s).events →
        jsTruthyOptStr s.preferredBroker = false)
    ∧ (Ev.remCred false ∈ (ensureCompleteSetup env now s).events →
        (ensureCompleteSetup env now s).ok = false
        ∧ (ensureCompleteSetup env now s).events.getLast? = some (Ev.remCred false))
    ∧ (Ev.remModules false ∈ (ensureCompleteSetup env now s).events →
        (ensureCompleteSetup env now s).ok = false
        ∧ (ensureCompleteSetup env now s).events.getLast? = some (Ev.remModules false))
    ∧ (Ev.remBroker false ∈ (ensureCompleteSetup env now s).events →
        (ensureCompleteSetup env now s).ok = false
        ∧ (ensureCompleteSetup env now s).events.getLast? = some (Ev.remBroker false))
    ∧ (env.useInteractive = true →
        Ev.remCallback true ∈ (ensureCompleteSetup env now s).events →
        hasAuthModules s = false →
        Ev.remModules true ∈ (ensureCompleteSetup env now s).events) := by
  unfold ensureCompleteSetup
  by_cases h1 : hasCredentials s = true
  · have hs1 : setupStep1 env now s = ⟨true, s, []⟩ := by
      unfold setupStep1
      simp [h1]
    rw [hs1]
    obtain ⟨tl, hev, hsub, hnc, hcb, hm, hb, hmf, hbf, hcont⟩ := steps234_spec env now s []
    rw [hev]
    simp only [List.nil_append]
    exact ⟨hsub.trans (by decide),
      fun b hbm => absurd hbm (hnc b),
      hcb, hm, hb,
      fun hbm => absurd hbm (hnc false),
      hmf, hbf, hcont⟩
  · rcases hp1 : promptMissingCredentials env now s with ⟨o1, s1⟩
    have hfr := pmc_frame env now s
    rw [hp1] at hfr
    obtain ⟨hfm, hfc, hfb⟩ := hfr
    have h1f : hasCredentials s = false := by simpa using h1
    cases o1 with
    | false =>
      have hs1 : setupStep1 env now s = ⟨false, s1, [Ev.remCred false]⟩ := by
        unfold setupStep1
        simp [h1, hp1]
      rw [hs1]
      have hs2 : setupStep2 env now (⟨false, s1, [Ev.remCred false]⟩ : StepState)
          = ⟨false, s1, [Ev.remCred false]⟩ := by
        unfold setupStep2
        simp
      rw [hs2]
      have hs3 : setupStep3 env now (⟨false, s1, [Ev.remCred false]⟩ : StepState)
          = ⟨false, s1, [Ev.remCred false]⟩ := by
        unfold setupStep3
        simp
      rw [hs3]
      have hs4 : setupStep4 env now (⟨false, s1, [Ev.remCred false]⟩ : StepState)
          = ⟨false, s1, [Ev.remCred false]⟩ := by
        unfold setupStep4
        simp
      rw [hs4]
      dsimp only
      refine ⟨by decide, fun b _ => h1f, by simp, by simp, by simp,
        fun _ => ⟨rfl, rfl⟩, by simp, by simp, ?_⟩
      intro _ hmem
      simp at hmem
    | true =>
      have hs1 : setupStep1 env now s = ⟨true, s1, [Ev.remCred true]⟩ := by
        unfold setupStep1
        simp [h1, hp1]
      rw [hs1]
      have hAM : hasAuthModules s1 = hasAuthModules s := by
        unfold hasAuthModules
        rw [hfm]
      have hCB : jsTruthyOptStr s1.callbackUri = jsTruthyOptStr s.callbackUri := by
        rw [hfc]
      have hPB : jsTruthyOptStr s1.preferredBroker = jsTruthyOptStr s.preferredBroker := by
        rw [hfb]
      obtain ⟨tl, hev, hsub, hnc, hcb, hm, hb, hmf, hbf, hcont⟩ :=
        steps234_spec env now s1 [Ev.remCred true]
      rw [hev]
      simp only [List.singleton_append]
      refine ⟨?_, fun b _ => h1f, ?_, ?_, ?_, ?_, ?_, ?_, ?_⟩
      · simp only [List.filterMap_cons, remKind]
        exact List.Sublist.cons₂ _ (hsub.trans (by decide))
      · intro b hbm
        rcases List.mem_cons.mp hbm with h | h
        · cases h
        · obtain ⟨hcb1, hcb2⟩ := hcb b h
          exact ⟨hCB ▸ hcb1, hcb2⟩
      · intro b hbm
        rcases List.mem_cons.mp hbm with h | h
        · cases h
        · exact hAM ▸ hm b h
      · intro b hbm
        rcases List.mem_cons.mp hbm with h | h
        · cases h
        · exact hPB ▸ hb b h
      · intro hmem
        rcases List.mem_cons.mp hmem with h | h
        · cases h
        · exact absurd h (hnc false)
      · intro hmem
        rcases List.mem_cons.mp hmem with h | h
        · cases h
        · obtain ⟨hok, hlast⟩ := hmf h
          exact ⟨hok, getLast?_append_some [Ev.remCred true] tl _ hlast⟩
      · intro hmem
        rcases List.mem_cons.mp hmem with h | h
        · cases h
        · obtain ⟨hok, hlast⟩ := hbf h
          exact ⟨hok, getLast?_append_some [Ev.remCred true] tl _ hlast⟩
      · intro hi hmem h3s
        rcases List.mem_cons.mp hmem with h | h
        · cases h
        · exact List.mem_cons_of_mem _ (hcont hi h (hAM.trans h3s))

end Locksmith
